import Mathlib

/-!
Verification of the Chronicle frontend's AI-continuation core:
the retry-with-backoff utility, the AI continuation client with its
model fallback chain and text extraction, the character-streaming
animator, the XState editor state machine, and the formatting-toolbar
reconciler.  Every definition is a shallow embedding of the
corresponding TypeScript in `src/my-react-app/src`.
-/

/-- `sub` is a leading segment of the second list (character-wise `==`). -/
def leadMatch : List Char → List Char → Bool
  | [], _ => true
  | _ :: _, [] => false
  | a :: as, b :: bs => a == b && leadMatch as bs

/-- `sub` occurs contiguously somewhere in the list. -/
def hasSub (sub : List Char) : List Char → Bool
  | [] => leadMatch sub []
  | b :: bs => leadMatch sub (b :: bs) || hasSub sub bs

/-- JavaScript `s.includes(sub)`: substring containment test. -/
def strIncludes (s sub : String) : Bool :=
  hasSub sub.data s.data

/-- JavaScript regex `\s` on the ASCII whitespace characters used here. -/
def isWsChar (c : Char) : Bool :=
  c = ' ' || c = '\t' || c = '\n' || c = '\r' ||
  c = Char.ofNat 11 || c = Char.ofNat 12

/-- JavaScript `s.trim()`: strip leading and trailing whitespace. -/
def jsTrim (s : String) : String :=
  String.mk (((s.data.dropWhile isWsChar).reverse.dropWhile isWsChar).reverse)

/-- Error classification of `retryWithBackoff`
(`ProseMirrorEditor.tsx`-bundle, aiService `retryWithBackoff`, lines 532-542):
an error message is retryable when it signals 503/overloaded, 429/quota, or a
network-transport failure, and does not signal 404/"not found". -/
def isRetryable (msg : String) : Bool :=
  (strIncludes msg "503" ||
   strIncludes msg "overloaded" ||
   strIncludes msg "429" ||
   strIncludes msg "quota" ||
   strIncludes msg "network" ||
   strIncludes msg "ECONNRESET" ||
   strIncludes msg "ETIMEDOUT") &&
  !(strIncludes msg "404") &&
  !(strIncludes msg "not found")

/-- Observable trace of one `retryWithBackoff` run: the final outcome, how many
times the wrapped function was invoked, and the backoff delays (in ms) slept
between invocations, in order. -/
structure RetryTrace (α : Type) where
  result : Except String α
  invocations : Nat
  delays : List Nat

/-- The `for (let attempt = 0; attempt < maxRetries; attempt++)` loop of
`retryWithBackoff`.  `fn i` is the outcome of the i-th invocation of the
wrapped async function (`Except.error msg` models a rejection with message
`msg`).  The second `Nat` argument is the number of loop iterations still
allowed (`maxRetries - attempt`); when it reaches 0 the loop has exhausted
without returning and the source throws `lastError || 'Max retries exceeded'`,
which at attempt 0 means no invocation happened and `lastError` is null. -/
def retryLoop (fn : Nat → Except String α) (initialDelay : Nat) :
    Nat → Nat → RetryTrace α
  | _, 0 => ⟨.error "Max retries exceeded", 0, []⟩
  | attempt, remaining + 1 =>
    match fn attempt with
    | .ok v => ⟨.ok v, 1, []⟩
    | .error msg =>
      if !(isRetryable msg) || remaining == 0 then
        ⟨.error msg, 1, []⟩
      else
        let rest := retryLoop fn initialDelay (attempt + 1) remaining
        ⟨rest.result, rest.invocations + 1, initialDelay * 2 ^ attempt :: rest.delays⟩

/-- `retryWithBackoff(fn, maxRetries, initialDelay)` from the aiService:
runs the attempt loop starting at attempt index 0. -/
def retryWithBackoff (fn : Nat → Except String α) (maxRetries initialDelay : Nat) :
    RetryTrace α :=
  retryLoop fn initialDelay 0 maxRetries

example : retryWithBackoff (fun i => if i < 2 then .error "503" else .ok 7) 3 10 =
    ⟨.ok 7, 3, [10, 20]⟩ := rfl

example : retryWithBackoff (fun _ => (.error "not found" : Except String Nat)) 3 10 =
    ⟨.error "not found", 1, []⟩ := rfl

/-! ## The AI continuation client (aiService `continueWriting`) -/

/-- One element of a Gemini response candidate's `content.parts` array:
`text` is `none` when the part has no `text` field. -/
structure GenPart where
  text : Option String

/-- A candidate's `content` object; `parts` is `none` when absent. -/
structure GenContentObj where
  parts : Option (List GenPart)

/-- One element of a response's `candidates` array. -/
structure GenCandidate where
  content : Option GenContentObj

/-- The provider response object (`result.response`).  `textFn` models the
`response.text()` accessor: `.ok s` when it returns `s`, `.error ()` when it
throws.  `candidates` is the optional `response.candidates` array. -/
structure GenResponse where
  textFn : Except Unit String
  candidates : Option (List GenCandidate)

/-- `parts.map((part) => part.text || '').join('')`. -/
def joinParts (ps : List GenPart) : String :=
  ps.foldl (fun acc p => acc ++ p.text.getD "") ""

/-- The first extraction pass of `continueWriting`: try `response.text()`;
if it throws, fall back to the first candidate's concatenated content parts
(requiring a non-empty `candidates` array, a `content` object, and a
non-empty `parts` array), else the initial `let text = ''` stands. -/
def extractPrimary (resp : GenResponse) : String :=
  match resp.textFn with
  | .ok s => s
  | .error _ =>
    match resp.candidates with
    | some (c :: _) =>
      match c.content with
      | some ct =>
        match ct.parts with
        | some (p :: ps) => jsTrim (joinParts (p :: ps))
        | _ => ""
      | none => ""
    | _ => ""

/-- Full extraction chain of `continueWriting`: the primary pass, then — if the
text so far is empty or whitespace-only — the second fallback reading
`result.response?.candidates` (same response object) and overwriting `text`
with the first candidate's joined, trimmed parts whenever `content?.parts`
exists (no non-emptiness check on `parts` in this pass). -/
def extractText (resp : GenResponse) : String :=
  let text := extractPrimary resp
  if text = "" ∨ jsTrim text = "" then
    match resp.candidates with
    | some (c :: _) =>
      match c.content with
      | some ct =>
        match ct.parts with
        | some ps => jsTrim (joinParts ps)
        | none => text
      | none => text
    | _ => text
  else text

/-- The enhanced error handler (outer `catch` of the attempt body): maps any
error message thrown inside the attempt to a user-facing message. -/
def mapError (msg : String) : String :=
  if strIncludes msg "API_KEY" || strIncludes msg "401" then
    "Invalid Gemini API key. Please check your VITE_GEMINI_API_KEY."
  else if strIncludes msg "quota" || strIncludes msg "429" then
    "API quota exceeded. Please try again later."
  else if strIncludes msg "503" || strIncludes msg "overloaded" then
    "The AI model is currently overloaded. Please try again in a moment."
  else if strIncludes msg "404" || strIncludes msg "not found" then
    "The requested AI model is not available. Please check your API configuration."
  else
    "Failed to generate paragraph: " ++ msg

/-- The ordered model fallback chain `modelsToTry`. -/
def modelsToTry : List String :=
  ["gemini-2.5-flash",
   "gemini-2.5-pro",
   "gemini-1.5-flash",
   "gemini-1.5-pro",
   "gemini-pro"]

/-- Outcome of the `for (const modelName of modelsToTry)` loop:
`success r` when the loop left `result` assigned (with `r = some resp` after a
`break` on a truthy `result.response`, `r = none` when a call returned a
result without a response and the list ran out), `exhausted lastErr` when
`result` was never assigned, `aborted msg` when a non-404 error was rethrown
from inside the loop. -/
inductive LoopResult (α : Type) where
  | success (r : Option α)
  | exhausted (lastErr : Option String)
  | aborted (msg : String)

/-- The model fallback loop.  `gen m` is the outcome of
`genAI.getGenerativeModel({model: m, ...}).generateContent(prompt)`:
`.error msg` models a rejection, `.ok (some resp)` a result whose `response`
field is present, `.ok none` a result with a falsy `response`.  Returns the
list of model names actually attempted (each one an outbound network call)
together with the loop outcome.  A "404"/"not found" failure continues with
the next model; any other failure aborts the loop immediately. -/
def modelLoop (gen : String → Except String (Option α)) :
    List String → Option (Option α) → Option String → List String × LoopResult α
  | [], result, lastErr =>
    ([], match result with
         | some r => .success r
         | none => .exhausted lastErr)
  | m :: rest, result, lastErr =>
    match gen m with
    | .ok r =>
      if r.isSome then
        ([m], .success r)
      else
        let next := modelLoop gen rest (some r) lastErr
        (m :: next.1, next.2)
    | .error msg =>
      if strIncludes msg "404" || strIncludes msg "not found" then
        let next := modelLoop gen rest result (some msg)
        (m :: next.1, next.2)
      else
        ([m], .aborted msg)

/-- Input of the AI client (`AIContinuationRequest`). -/
structure AIContinuationRequest where
  text : String

/-- Output of the AI client (`AIContinuationResponse`). -/
structure AIContinuationResponse where
  continuation : String

/-- Models the JavaScript `TypeError` raised after the loop when `result` is
truthy but `result.response` is absent, so that the extraction code
dereferences `undefined`. -/
def undefinedResponseError : String :=
  "TypeError: cannot read properties of undefined"

/-- The body of the `try` block handed to `retryWithBackoff` by
`continueWriting` (model fallback loop, aggregate no-model error, extraction
chain, empty-response check), before the outer catch maps the error.
Returns the attempted model names and the raw outcome. -/
def tryBody (gen : String → Except String (Option GenResponse)) :
    List String × Except String AIContinuationResponse :=
  ((modelLoop gen modelsToTry none none).1,
   match (modelLoop gen modelsToTry none none).2 with
   | .aborted msg => .error msg
   | .exhausted lastErr =>
     .error ("No available models found. Last error: " ++ lastErr.getD "Unknown error")
   | .success none => .error undefinedResponseError
   | .success (some resp) =>
     let text := extractText resp
     if text = "" ∨ jsTrim text = "" then
       .error "Empty response from API. The model did not generate any content."
     else
       .ok ⟨jsTrim text⟩)

/-- One full attempt of `continueWriting`'s retried closure: the try body with
its outer catch, which maps every thrown error through `mapError`. -/
def attemptBody (gen : String → Except String (Option GenResponse)) :
    List String × Except String AIContinuationResponse :=
  ((tryBody gen).1,
   match (tryBody gen).2 with
   | .ok v => .ok v
   | .error e => .error (mapError e))

/-- Observable trace of one `continueWriting` call: the final outcome, the
outbound generation calls as (retry attempt index, model name) pairs in
order, and the backoff delays slept between retry attempts. -/
structure CWTrace where
  result : Except String AIContinuationResponse
  calls : List (Nat × String)
  delays : List Nat

/-- `retryWithBackoff` as instantiated inside `continueWriting` (3 attempts,
exponential backoff), instrumented with the per-attempt network-call trace.
`gen i m` is the outcome of the generation call for model `m` during retry
attempt `i`.  The result component coincides with
`retryLoop (fun i => (attemptBody (gen i)).2)` (see
`cwLoop_result_eq_retryLoop`). -/
def cwLoop (gen : Nat → String → Except String (Option GenResponse))
    (initialDelay : Nat) : Nat → Nat → CWTrace
  | _, 0 => ⟨.error "Max retries exceeded", [], []⟩
  | attempt, remaining + 1 =>
    match (attemptBody (gen attempt)).2 with
    | .ok v => ⟨.ok v, (attemptBody (gen attempt)).1.map (fun m => (attempt, m)), []⟩
    | .error msg =>
      if !(isRetryable msg) || remaining == 0 then
        ⟨.error msg, (attemptBody (gen attempt)).1.map (fun m => (attempt, m)), []⟩
      else
        ⟨(cwLoop gen initialDelay (attempt + 1) remaining).result,
         (attemptBody (gen attempt)).1.map (fun m => (attempt, m)) ++
           (cwLoop gen initialDelay (attempt + 1) remaining).calls,
         initialDelay * 2 ^ attempt :: (cwLoop gen initialDelay (attempt + 1) remaining).delays⟩

/-- `continueWriting(request)` from the aiService.  `apiKey` models
`import.meta.env.VITE_GEMINI_API_KEY` (`none` when unset), and `gen` models
the provider's generation call (the prompt is a fixed template around the
trimmed user text, so it is abstracted into `gen`).  Validation: missing key
fails first; then empty trimmed text fails with the validation error; only
then is the retried attempt loop entered (3 attempts, 1000ms initial delay). -/
def continueWriting (apiKey : Option String) (request : AIContinuationRequest)
    (gen : Nat → String → Except String (Option GenResponse)) : CWTrace :=
  match apiKey with
  | none =>
    ⟨.error "Gemini API key is not configured. Please set VITE_GEMINI_API_KEY in your .env file.",
     [], []⟩
  | some _ =>
    if jsTrim request.text = "" then
      ⟨.error "No text provided.", [], []⟩
    else
      cwLoop gen 1000 0 3

/-- Consistency of the instrumented loop with the generic retry utility:
forgetting the network-call trace, `cwLoop` is exactly `retryLoop` applied to
the attempt body. -/
theorem cwLoop_result_eq_retryLoop (gen : Nat → String → Except String (Option GenResponse))
    (d a n : Nat) :
    (cwLoop gen d a n).result =
      (retryLoop (fun i => (attemptBody (gen i)).2) d a n).result := by
  induction n generalizing a with
  | zero => rfl
  | succ n ih =>
    simp only [cwLoop, retryLoop]
    cases h : (attemptBody (gen a)).2 with
    | ok v => simp [h]
    | error msg =>
      simp only [h]
      by_cases hr : (!(isRetryable msg) || n == 0) = true
      · simp [hr]
      · simp [hr, ih]

/-! ## The streaming animator (`ProseMirrorEditor.streamContent`) -/

/-- The `lastChar && !lastChar.match(/\s/)` check on the document's text
content: true when the document is non-empty and its last character is
non-whitespace. -/
def lastCharNonWs (doc : String) : Bool :=
  match doc.data.getLast? with
  | some c => !(isWsChar c)
  | none => false

/-- The `while (textToStream.startsWith('\n'))` stripping loop: count of
leading newline characters and the rest of the text. -/
def splitLeadingNewlines : List Char → Nat × List Char
  | '\n' :: cs =>
    let p := splitLeadingNewlines cs
    (p.1 + 1, p.2)
  | cs => (0, cs)

/-- The preparation phase of `streamContent`: strip leading newlines, prepend
one space to the remaining text when there are no leading newlines and the
document's last existing character is non-whitespace, and insert the leading
newlines at the document's end.  Returns (document after newline insertion,
text to stream character by character). -/
def prepInsert (doc0 content : String) : String × String :=
  let split := splitLeadingNewlines content.data
  let textToStream :=
    if split.1 = 0 ∧ lastCharNonWs doc0 then String.mk (' ' :: split.2)
    else String.mk split.2
  (doc0 ++ String.mk (List.replicate split.1 '\n'), textToStream)

/-- The per-character streaming loop.  `alive i` is whether `viewRef.current`
is still set at the i-th liveness check (check 0 is the guard at function
entry; check `i ≥ 1` is the `if (!viewRef.current) break` at the start of
loop iteration `i - 1`).  Each live iteration inserts one character at the
document's end.  The boolean result records whether execution reached the
`onComplete` call site after the loop — which it does both on natural
completion and after a `break`. -/
def streamLoop (alive : Nat → Bool) : List Char → Nat → List Char → List Char × Bool
  | [], _, doc => (doc, true)
  | c :: cs, i, doc =>
    if alive i then streamLoop alive cs (i + 1) (doc ++ [c])
    else (doc, true)

/-- `streamContent(content, onComplete)` on a document whose text content is
`doc0`: returns the final document text content and whether `onComplete` was
invoked.  If the view is already gone at entry the function returns
immediately (no mutation, no `onComplete`). -/
def streamContent (alive : Nat → Bool) (doc0 content : String) : String × Bool :=
  if alive 0 then
    let prep := prepInsert doc0 content
    let run := streamLoop alive prep.2.data 1 prep.1.data
    (String.mk run.1, run.2)
  else (doc0, false)

/-- The characters the streaming loop manages to insert before the first
failing liveness check: a prefix of the stream text cut at the first `i` with
`alive i = false`. -/
def aliveTake (alive : Nat → Bool) : List Char → Nat → List Char
  | [], _ => []
  | c :: cs, i => if alive i then c :: aliveTake alive cs (i + 1) else []

/-- The streaming loop always reaches the `onComplete` call site, and inserts
exactly the characters up to the first failing liveness check. -/
theorem streamLoop_eq (alive : Nat → Bool) (cs : List Char) (i : Nat) (doc : List Char) :
    streamLoop alive cs i doc = (doc ++ aliveTake alive cs i, true) := by
  induction cs generalizing i doc with
  | nil => simp [streamLoop, aliveTake]
  | cons c cs ih =>
    simp only [streamLoop, aliveTake]
    by_cases h : alive i = true
    · simp [h, ih]
    · simp [h]

example : streamContent (fun _ => true) "" "Hello" = ("Hello", true) := by decide
example : streamContent (fun _ => true) "Hi" " world" = ("Hi  world", true) := by decide
example : streamContent (fun k => decide (k < 2)) "" "ab" = ("a", true) := by decide

/-! ## The editor state machine (`editorMachine`, machines/editorMachine.ts) -/

/-- The two states of `editorMachine`. -/
inductive MachineState where
  | idle
  | loading
deriving DecidableEq

/-- The machine's context. -/
structure EditorContext where
  content : String
  isLoading : Bool
  error : Option String
deriving DecidableEq

/-- The machine's events. -/
inductive EditorEvent where
  | continueWriting
  | contentUpdated (content : String)
  | aiResponse (content : String)
  | error (error : String)
  | reset
deriving DecidableEq

/-- The `hasContent` guard: `context.content.trim().length > 0`. -/
def hasContent (c : EditorContext) : Bool :=
  (jsTrim c.content).length > 0

/-- The machine's initial configuration. -/
def editorInit : MachineState × EditorContext :=
  (.idle, ⟨"", false, none⟩)

/-- One transition of `editorMachine`.  `RESET` is a global handler targeting
`idle` with a full context reset.  In `idle`, `CONTINUE_WRITING` moves to
`loading` when `hasContent` holds (the `loading` entry action sets
`isLoading := true` and clears `error`), and is ignored otherwise;
`CONTENT_UPDATED` assigns the content in place in both states.  In `loading`,
`AI_RESPONSE` appends `' ' + content` and returns to `idle` with
`isLoading := false`; `ERROR` stores the message and returns to `idle` with
`isLoading := false`.  Unhandled events leave the configuration unchanged. -/
def editorStep : MachineState × EditorContext → EditorEvent → MachineState × EditorContext
  | (_, _), .reset => (.idle, ⟨"", false, none⟩)
  | (.idle, c), .continueWriting =>
    if hasContent c then (.loading, { c with isLoading := true, error := none })
    else (.idle, c)
  | (.idle, c), .contentUpdated s => (.idle, { c with content := s })
  | (.idle, c), _ => (.idle, c)
  | (.loading, c), .aiResponse s =>
    (.idle, { c with content := c.content ++ " " ++ s, isLoading := false })
  | (.loading, c), .error e =>
    (.idle, { c with error := some e, isLoading := false })
  | (.loading, c), .contentUpdated s => (.loading, { c with content := s })
  | (.loading, c), _ => (.loading, c)

/-- Configurations reachable from the machine's initial configuration. -/
inductive EditorReachable : MachineState × EditorContext → Prop
  | init : EditorReachable editorInit
  | next (sc : MachineState × EditorContext) (e : EditorEvent) :
      EditorReachable sc → EditorReachable (editorStep sc e)

/-! ## The toolbar state reconciler (`FormattingToolbar.updateToolbar`) -/

/-- The range branch of `updateToolbar` (non-collapsed selection): each mark
found at the selection start (`resolve(selection.from).marks()`) is reported
active only if every node within `nodesBetween(selection.from, selection.to)`
carries a mark of the same type.  A content unit is modelled by the list of
its mark type names. -/
def activeMarksRange (marksAtStart : List String) (nodes : List (List String)) :
    List String :=
  marksAtStart.filter (fun markName => nodes.all (fun nodeMarks => nodeMarks.contains markName))

example : activeMarksRange ["strong"] [["strong"], []] = [] := by decide
example : activeMarksRange ["strong", "em"] [["strong", "em"], ["strong"]] = ["strong"] := by
  decide

/-! ## Helper lemmas -/

/-- A successful try body always carries the trimmed, non-empty extracted
text: the empty-response check rules out an empty continuation. -/
theorem tryBody_ok_ne (gen : String → Except String (Option GenResponse))
    (v : AIContinuationResponse) (h : (tryBody gen).2 = .ok v) :
    v.continuation ≠ "" := by
  simp only [tryBody] at h
  split at h
  · simp at h
  · simp at h
  · simp at h
  · rename_i resp _
    split at h
    · simp at h
    · rename_i hc
      push_neg at hc
      have hv : v = ⟨jsTrim (extractText resp)⟩ := by
        cases h; rfl
      rw [hv]
      exact hc.2

/-- A successful attempt is a successful try body (the outer catch only
rewrites errors). -/
theorem attemptBody_ok (gen : String → Except String (Option GenResponse))
    (v : AIContinuationResponse) (h : (attemptBody gen).2 = .ok v) :
    (tryBody gen).2 = .ok v := by
  simp only [attemptBody] at h
  cases ht : (tryBody gen).2 with
  | ok w => rw [ht] at h; simpa using h
  | error e => rw [ht] at h; simp at h

/-- Every successful outcome of the instrumented retry loop carries a
non-empty continuation. -/
theorem cwLoop_ok_ne (gen : Nat → String → Except String (Option GenResponse))
    (d : Nat) (v : AIContinuationResponse) :
    ∀ n a, (cwLoop gen d a n).result = .ok v → v.continuation ≠ "" := by
  intro n
  induction n with
  | zero => intro a h; simp [cwLoop] at h
  | succ n ih =>
    intro a h
    simp only [cwLoop] at h
    split at h
    · rename_i w hA
      simp at h
      rw [← h]
      exact tryBody_ok_ne _ w (attemptBody_ok _ w hA)
    · rename_i msg hA
      split at h
      · simp at h
      · exact ih (a + 1) h

/-! ## Claim theorems -/

/-- C1: `retryWithBackoff(fn, 3, d)` re-invokes `fn` after a retryable failure
with a wait of `d * 2 ^ attemptIndex` before each retry, up to 3 attempts
total, returning the first successful result: a function failing twice with
retryable errors then succeeding is invoked exactly 3 times with delays `d`
and `2 * d` between invocations and the third result is returned; a function
failing with a non-retryable error on the first attempt is invoked exactly
once and that error propagates with no delay. -/
theorem retryWithBackoff_two_retryable_then_success_and_nonretryable
    {α : Type} (fn : Nat → Except String α) (d : Nat) (e0 e1 : String) (v : α)
    (h0 : fn 0 = .error e0) (r0 : isRetryable e0 = true)
    (h1 : fn 1 = .error e1) (r1 : isRetryable e1 = true)
    (h2 : fn 2 = .ok v) :
    retryWithBackoff fn 3 d = ⟨.ok v, 3, [d, d * 2]⟩ ∧
    (∀ (gn : Nat → Except String α) (e : String),
      gn 0 = .error e → isRetryable e = false →
      retryWithBackoff gn 3 d = ⟨.error e, 1, []⟩) := by
  constructor
  · simp [retryWithBackoff, retryLoop, h0, h1, h2, r0, r1]
  · intro gn e hg hr
    simp [retryWithBackoff, retryLoop, hg, hr]

/-- Witness for C1 at concrete inputs: two 503 failures then success, and a
"not found" failure on the first attempt. -/
theorem retryWithBackoff_two_retryable_then_success_and_nonretryable_witness :
    retryWithBackoff (fun i => if i < 2 then (.error "503" : Except String Nat) else .ok 7) 3 10 =
      ⟨.ok 7, 3, [10, 10 * 2]⟩ ∧
    retryWithBackoff (fun _ => (.error "not found" : Except String Nat)) 3 10 =
      ⟨.error "not found", 1, []⟩ := by
  have h := retryWithBackoff_two_retryable_then_success_and_nonretryable
    (fun i => if i < 2 then (.error "503" : Except String Nat) else .ok 7) 10
    "503" "503" 7 rfl (by decide) rfl (by decide) rfl
  exact ⟨h.1, h.2 _ "not found" rfl (by decide)⟩

/-- C2: in `continueWriting`'s iteration over the ordered model fallback list,
an attempt failing with a "model not found"/404 signature moves on to the
next model; an attempt failing with any other signature aborts the loop
immediately; the first attempt yielding a response is accepted and no later
model is tried — if the first two models fail with "not found" and the third
succeeds, the loop ends with the third model's response after attempting
exactly the first three models. -/
theorem modelLoop_fallback_on_not_found_and_abort_otherwise
    {α : Type} (gen : String → Except String (Option α)) (e1 e2 : String) (r : α)
    (n1 : (strIncludes e1 "404" || strIncludes e1 "not found") = true)
    (n2 : (strIncludes e2 "404" || strIncludes e2 "not found") = true)
    (h1 : gen "gemini-2.5-flash" = .error e1)
    (h2 : gen "gemini-2.5-pro" = .error e2)
    (h3 : gen "gemini-1.5-flash" = .ok (some r)) :
    modelLoop gen modelsToTry none none =
      (["gemini-2.5-flash", "gemini-2.5-pro", "gemini-1.5-flash"], .success (some r)) ∧
    (∀ (gn : String → Except String (Option α)) (e : String),
      (strIncludes e "404" || strIncludes e "not found") = false →
      gn "gemini-2.5-flash" = .error e →
      modelLoop gn modelsToTry none none = (["gemini-2.5-flash"], .aborted e)) := by
  constructor
  · simp [modelLoop, modelsToTry, h1, h2, h3, n1, n2]
  · intro gn e hn hg
    simp [modelLoop, modelsToTry, hg, hn]

/-- Witness for C2 at concrete inputs: the first two models fail with
"not found", the third yields a response; separately, a 503 failure on the
first model aborts at once. -/
theorem modelLoop_fallback_on_not_found_and_abort_otherwise_witness :
    modelLoop
      (fun m => if m = "gemini-1.5-flash" then .ok (some 7)
                else (.error "model not found" : Except String (Option Nat)))
      modelsToTry none none =
      (["gemini-2.5-flash", "gemini-2.5-pro", "gemini-1.5-flash"], .success (some 7)) ∧
    modelLoop (fun _ => (.error "503" : Except String (Option Nat))) modelsToTry none none =
      (["gemini-2.5-flash"], .aborted "503") := by
  have h := modelLoop_fallback_on_not_found_and_abort_otherwise
    (fun m => if m = "gemini-1.5-flash" then .ok (some 7)
              else (.error "model not found" : Except String (Option Nat)))
    "model not found" "model not found" 7
    (by decide) (by decide) rfl rfl rfl
  exact ⟨h.1, h.2 _ "503" (by decide) rfl⟩

/-- C3: for every request whose text is empty after trimming,
`continueWriting` performs no generation call and no backoff, and (when the
credential is configured, so that the preceding configuration check passes)
fails with the validation error "No text provided.". -/
theorem continueWriting_empty_text_rejected
    (apiKey : Option String) (request : AIContinuationRequest)
    (gen : Nat → String → Except String (Option GenResponse))
    (h : jsTrim request.text = "") :
    (continueWriting apiKey request gen).calls = [] ∧
    (continueWriting apiKey request gen).delays = [] ∧
    (∀ k, apiKey = some k →
      continueWriting apiKey request gen = ⟨.error "No text provided.", [], []⟩) := by
  cases apiKey with
  | none => simp [continueWriting]
  | some k => simp [continueWriting, h]

/-- Witness for C3 at a concrete input: a whitespace-only request with the
credential configured. -/
theorem continueWriting_empty_text_rejected_witness :
    jsTrim "   " = "" ∧
    continueWriting (some "key") ⟨"   "⟩ (fun _ _ => .error "503") =
      ⟨.error "No text provided.", [], []⟩ := by
  have h := continueWriting_empty_text_rejected (some "key") ⟨"   "⟩
    (fun _ _ => .error "503") (by decide)
  exact ⟨by decide, h.2.2 "key" rfl⟩

/-- C4 counterexample: with the view destroyed from liveness check 2 onwards,
`streamContent` on content "ab" stops mid-stream after inserting only "a",
yet the completion flag is `true` — the `break` leaves the loop but execution
falls through to the `onComplete` call, so `onComplete` IS invoked, contrary
to the claim. -/
theorem streamContent_midstream_destroy_invokes_onComplete :
    (streamContent (fun k => decide (k < 2)) "" "ab").1 = "a" ∧
    (streamContent (fun k => decide (k < 2)) "" "ab").2 = true := by
  decide

/-- C4 amended: if the view is destroyed mid-stream, character insertion stops
at the next per-iteration liveness check (the document receives exactly the
characters up to the first failing check), but `onComplete` IS still invoked;
`onComplete` is skipped only when the view is already destroyed at entry, in
which case nothing is mutated. -/
theorem streamContent_stops_but_still_completes
    (alive : Nat → Bool) (doc0 content : String) :
    (alive 0 = false → streamContent alive doc0 content = (doc0, false)) ∧
    (alive 0 = true →
      streamContent alive doc0 content =
        (String.mk ((prepInsert doc0 content).1.data ++
          aliveTake alive (prepInsert doc0 content).2.data 1), true)) := by
  constructor
  · intro h
    simp [streamContent, h]
  · intro h
    simp [streamContent, h, streamLoop_eq]

/-- Witness for C4's amended theorem at concrete inputs. -/
theorem streamContent_stops_but_still_completes_witness :
    ((fun k => decide (k < 2)) 0 = true) ∧
    streamContent (fun k => decide (k < 2)) "" "ab" =
      (String.mk ((prepInsert "" "ab").1.data ++
        aliveTake (fun k => decide (k < 2)) (prepInsert "" "ab").2.data 1), true) :=
  ⟨rfl, (streamContent_stops_but_still_completes (fun k => decide (k < 2)) "" "ab").2 rfl⟩

/-- C5 counterexample: after existing document text "Hi", streaming " world"
yields "Hi  world" with a DOUBLED space — the boundary space is added without
deduplication against the source's own leading space, so the document does
not end in "Hi world". -/
theorem streamContent_space_not_collapsed :
    streamContent (fun _ => true) "Hi" " world" = ("Hi  world", true) ∧
    ¬ ("Hi world" : String).data <:+ ("Hi  world" : String).data := by
  decide

/-- C5 amended: `streamContent("Hello")` on an empty document (last-character
check finds none) yields "Hello" with no leading injected space; but
`streamContent(" world")` after document text "Hi" (last character
non-whitespace, source already starting with a space) yields "Hi  world" —
the boundary space is injected in addition to the source's leading space,
doubling it rather than collapsing it. -/
theorem streamContent_boundary_space_behavior :
    streamContent (fun _ => true) "" "Hello" = ("Hello", true) ∧
    streamContent (fun _ => true) "Hi" " world" = ("Hi  world", true) := by
  decide

/-- C6: if every extraction path yields only empty or whitespace-only text
(the full extraction chain trims to empty), `continueWriting` fails with the
empty-response error (surfaced through the attempt's error mapper as
"Failed to generate paragraph: Empty response from API. ..."), and on every
successful return the continuation field is non-empty. -/
theorem continueWriting_empty_extraction_fails_and_success_nonempty
    (k : String) (request : AIContinuationRequest)
    (gen : Nat → String → Except String (Option GenResponse)) (resp : GenResponse)
    (hne : ¬ jsTrim request.text = "")
    (hloop : (modelLoop (gen 0) modelsToTry none none).2 = .success (some resp))
    (hempty : jsTrim (extractText resp) = "") :
    (continueWriting (some k) request gen).result =
      .error "Failed to generate paragraph: Empty response from API. The model did not generate any content." ∧
    (∀ (apiKey : Option String) (req : AIContinuationRequest)
       (gn : Nat → String → Except String (Option GenResponse))
       (v : AIContinuationResponse),
      (continueWriting apiKey req gn).result = .ok v → v.continuation ≠ "") := by
  constructor
  · have hTry : (tryBody (gen 0)).2 =
        .error "Empty response from API. The model did not generate any content." := by
      simp only [tryBody, hloop]
      simp [hempty]
    have hAtt : (attemptBody (gen 0)).2 =
        .error "Failed to generate paragraph: Empty response from API. The model did not generate any content." := by
      simp only [attemptBody, hTry]
      exact congrArg Except.error (by decide)
    simp only [continueWriting, if_neg hne]
    simp only [cwLoop, hAtt]
    have hr : isRetryable
        "Failed to generate paragraph: Empty response from API. The model did not generate any content." = false := by
      decide
    simp [hr]
  · intro apiKey req gn v h
    cases apiKey with
    | none => simp [continueWriting] at h
    | some key =>
      simp only [continueWriting] at h
      by_cases ht : jsTrim req.text = ""
      · rw [if_pos ht] at h; simp at h
      · rw [if_neg ht] at h
        exact cwLoop_ok_ne gn 1000 v 3 0 h

/-- Witness for C6 at concrete inputs: a response whose direct text accessor
returns the empty string and which has no candidates, after a non-empty
request with the credential configured. -/
theorem continueWriting_empty_extraction_fails_and_success_nonempty_witness :
    ¬ jsTrim "hello" = "" ∧
    (continueWriting (some "key") ⟨"hello"⟩
      (fun _ _ => .ok (some ⟨.ok "", none⟩))).result =
      .error "Failed to generate paragraph: Empty response from API. The model did not generate any content." :=
  ⟨by decide,
   (continueWriting_empty_extraction_fails_and_success_nonempty "key" ⟨"hello"⟩
     (fun _ _ => .ok (some ⟨.ok "", none⟩)) ⟨.ok "", none⟩
     (by decide) rfl (by decide)).1⟩

/-- C7: `CONTINUE_WRITING` received in `idle` while the content is
whitespace-only (empty after trim) leaves the machine in `idle` with the
context unchanged, and `RESET` received in any state yields `idle` with
context `{content: "", isLoading: false, error: null}`. -/
theorem editorStep_empty_guard_and_reset :
    (∀ c : EditorContext, jsTrim c.content = "" →
      editorStep (.idle, c) .continueWriting = (.idle, c)) ∧
    (∀ (s : MachineState) (c : EditorContext),
      editorStep (s, c) .reset = (.idle, ⟨"", false, none⟩)) := by
  constructor
  · intro c h
    simp [editorStep, hasContent, h]
  · intro s c
    cases s <;> rfl

/-- Witness for C7 at concrete inputs: whitespace-only content in `idle`, and
`RESET` from `loading` with a dirty context. -/
theorem editorStep_empty_guard_and_reset_witness :
    jsTrim "  " = "" ∧
    editorStep (.idle, ⟨"  ", false, none⟩) .continueWriting = (.idle, ⟨"  ", false, none⟩) ∧
    editorStep (.loading, ⟨"x", true, some "boom"⟩) .reset = (.idle, ⟨"", false, none⟩) :=
  ⟨by decide,
   editorStep_empty_guard_and_reset.1 ⟨"  ", false, none⟩ (by decide),
   editorStep_empty_guard_and_reset.2 .loading ⟨"x", true, some "boom"⟩⟩

/-- C8: in every reachable configuration of the editor machine, `isLoading`
is true exactly while the machine is in the `loading` state, and `error` is
null whenever the machine is in `loading` (the `loading` entry action sets
`isLoading := true` and clears `error`; `AI_RESPONSE` and `ERROR` set
`isLoading := false`); moreover `RESET` always yields a null error. -/
theorem editorMachine_loading_invariant
    (sc : MachineState × EditorContext) (h : EditorReachable sc) :
    ((sc.2.isLoading = true ↔ sc.1 = .loading) ∧
     (sc.1 = .loading → sc.2.error = none)) ∧
    (∀ sc' : MachineState × EditorContext, (editorStep sc' .reset).2.error = none) := by
  refine ⟨?_, ?_⟩
  · induction h with
    | init => simp [editorInit]
    | next sc e _ ih =>
      obtain ⟨s, c⟩ := sc
      obtain ⟨ihIff, ihErr⟩ := ih
      cases s with
      | idle =>
        have hI : c.isLoading = false := by
          cases hb : c.isLoading
          · rfl
          · exact absurd (ihIff.mp hb) (by simp)
        cases e with
        | reset => simp [editorStep]
        | continueWriting =>
          by_cases hg : hasContent c
          · simp [editorStep, hg]
          · simp [editorStep, hg, hI]
        | contentUpdated s' => simp [editorStep, hI]
        | aiResponse s' => simp [editorStep, hI]
        | error e' => simp [editorStep, hI]
      | loading =>
        have hL : c.isLoading = true := ihIff.mpr rfl
        have hE : c.error = none := ihErr rfl
        cases e with
        | reset => simp [editorStep]
        | continueWriting => simp [editorStep, hL, hE]
        | contentUpdated s' => simp [editorStep, hL, hE]
        | aiResponse s' => simp [editorStep]
        | error e' => simp [editorStep]
  · intro sc'
    obtain ⟨s', c'⟩ := sc'
    cases s' <;> rfl

/-- Witness for C8 at the initial configuration, which is reachable. -/
theorem editorMachine_loading_invariant_witness :
    EditorReachable editorInit ∧
    ((editorInit.2.isLoading = true ↔ editorInit.1 = .loading) ∧
     (editorInit.1 = .loading → editorInit.2.error = none)) :=
  ⟨.init, (editorMachine_loading_invariant editorInit .init).1⟩

/-- C9: for a range selection, the toolbar reconciler reports a formatting
mark as active only if every content unit within the selection carries it
(intersection semantics); in particular a range spanning two units where
only the first carries "strong" leaves bold out of the active set. -/
theorem activeMarksRange_intersection :
    (∀ (marksAtStart : List String) (nodes : List (List String)) (m : String),
      m ∈ activeMarksRange marksAtStart nodes → ∀ u ∈ nodes, m ∈ u) ∧
    "strong" ∉ activeMarksRange ["strong"] [["strong"], []] := by
  constructor
  · intro ms nodes m hm u hu
    rw [activeMarksRange, List.mem_filter] at hm
    have hall := hm.2
    rw [List.all_eq_true] at hall
    have hc := hall u hu
    simpa using hc
  · decide

/-- Witness for C9 at a concrete input: a single-unit range carrying the mark. -/
theorem activeMarksRange_intersection_witness :
    "strong" ∈ activeMarksRange ["strong"] [["strong"]] ∧
    ∀ u ∈ [["strong"]], "strong" ∈ u :=
  ⟨by decide,
   activeMarksRange_intersection.1 ["strong"] [["strong"]] "strong" (by decide)⟩

/-- C10: in both `idle` and `loading`, `CONTENT_UPDATED(text)` leaves the
machine in the same state, sets `content := text`, and changes nothing else:
`isLoading` and `error` are untouched. -/
theorem editorStep_contentUpdated_frame (c : EditorContext) (s : String) :
    editorStep (.idle, c) (.contentUpdated s) = (.idle, ⟨s, c.isLoading, c.error⟩) ∧
    editorStep (.loading, c) (.contentUpdated s) = (.loading, ⟨s, c.isLoading, c.error⟩) :=
  ⟨rfl, rfl⟩
